import Mathlib

/-
Shallow embedding of daphne's CLI bootstrap core, `src/daphne/cli.py`
(class `CommandLineInterface`).

The embedding models the post-parse behaviour of `CommandLineInterface.run`:
a `Args` record holds the values `argparse` produces (one field per
`add_argument` call, with the source's defaults), and `runSteps` replays the
body of `run` as a pure function, recording the externally visible steps in
order as a list of `RunEvent`s and returning either the assembled server
configuration or the first error raised.

External collaborators (the Twisted server, `import_by_path`,
`guarantee_single_callable`, `import_module`, filesystem and logging side
effects) are treated as always-succeeding environment operations; the
callback module's attribute lookups are abstracted by a `CallbackModuleEnv`
record saying which hooks the loaded module exposes.

Python truthiness matters in several branches (`if args.access_log:`,
`if args.proxy_headers_host:`, `if args.host:`): an absent optional string
argument is `None`/`False` and an explicitly supplied empty string is falsy
too.  Both are modelled by `Option String` with the truthiness test
`optStrTruthy` (`none` ↦ falsy, `some s` ↦ truthy iff `s` is non-empty).
-/

namespace DaphneCLI

/-- Lexicographic comparison of character lists by Unicode code point.
This is the order Python's `sorted` uses on `str` values (and it agrees with
Lean's `String` order, proved in `strLe_iff_le` below); it is defined by
structural recursion so that concrete instances evaluate by `decide`. -/
def charsLe : List Char → List Char → Bool
  | [], _ => true
  | _ :: _, [] => false
  | a :: as, b :: bs =>
    if a.toNat < b.toNat then true
    else if b.toNat < a.toNat then false
    else charsLe as bs

/-- Comparison of strings: `strLe a b` is true iff `a` precedes or equals `b` in the lexicographic
code-point order used by Python's `sorted` on strings. -/
def strLe (a b : String) : Bool := charsLe a.data b.data

/-- The three `logging` levels that `run`'s verbosity dictionary can select
(`logging.WARN`, `logging.INFO`, `logging.DEBUG`). -/
inductive LogLevel
  | warn
  | info
  | debug
deriving DecidableEq

/-- Where the access log is written: `sys.stdout`, or a file path opened by
`open(path, "a", 1)` — append mode with line buffering. -/
inductive AccessLogSink
  | stdout
  | fileAppendLineBuffered (path : String)
deriving DecidableEq

/-- The parsed argument namespace: one field per `add_argument` call in
`CommandLineInterface.__init__`.  Options whose argparse default is
`None` (or `False` for the `action="store"` proxy-header options) are
`Option`-typed with `none` meaning "flag not passed". -/
structure Args where
  port : Option Int
  host : Option String
  websocket_timeout : Int
  websocket_connect_timeout : Int
  unix_socket : Option String
  file_descriptor : Option Int
  socket_strings : List String
  verbosity : Int
  http_timeout : Option Int
  access_log : Option String
  log_fmt : String
  ping_interval : Int
  ping_timeout : Int
  application_close_timeout : Int
  root_path : String
  proxy_headers : Bool
  proxy_headers_host : Option String
  proxy_headers_port : Option String
  application : String
  server_name : String
  callback_module : Option String
  chdir : Option String
deriving DecidableEq

/-- The argparse defaults: the `Args` value produced by parsing a command
line that passes only the required positional `application`. -/
def defaultArgs (application : String) : Args where
  port := none
  host := none
  websocket_timeout := 86400
  websocket_connect_timeout := 5
  unix_socket := none
  file_descriptor := none
  socket_strings := []
  verbosity := 1
  http_timeout := none
  access_log := none
  log_fmt := "%(asctime)-15s %(levelname)-8s %(message)s"
  ping_interval := 20
  ping_timeout := 30
  application_close_timeout := 10
  root_path := ""
  proxy_headers := false
  proxy_headers_host := none
  proxy_headers_port := none
  application := application
  server_name := "daphne"
  callback_module := none
  chdir := none

/-- Python truthiness of an optional string value: `None` (and argparse's
`False` default for the proxy-header options) is falsy, the empty string is
falsy, any non-empty string is truthy. -/
def optStrTruthy : Option String → Bool
  | none => false
  | some s => !s.isEmpty

/-- Source constant `DEFAULT_HOST = "127.0.0.1"` (cli.py line 17). -/
def DEFAULT_HOST : String := "127.0.0.1"

/-- Source constant `DEFAULT_PORT = 8000` (cli.py line 18). -/
def DEFAULT_PORT : Int := 8000

/-- The verbosity-to-level dictionary passed to `logging.basicConfig`
(cli.py lines 225-230): `{0: WARN, 1: INFO, 2: DEBUG, 3: DEBUG}`.
A verbosity outside the four keys raises `KeyError` (`none` here). -/
def basicConfigLevel (verbosity : Int) : Option LogLevel :=
  if verbosity = 0 then some LogLevel.warn
  else if verbosity = 1 then some LogLevel.info
  else if verbosity = 2 then some LogLevel.debug
  else if verbosity = 3 then some LogLevel.debug
  else none

/-- Modelled from the spec: the dictionary entry for verbosity 3 is annotated
"Also turns on asyncio debug" in cli.py, but the concurrency-runtime
diagnostics themselves live in the server collaborator (`daphne/server.py`),
which is not part of the given source.  Per the spec, verbosity 3 — and only
verbosity 3 — additionally requests maximally verbose concurrency-runtime
diagnostics. -/
def asyncioDebugRequested (verbosity : Int) : Bool := verbosity == 3

/-- The full logging configuration selected by a verbosity value: the
`logging.basicConfig` level together with whether extra concurrency-runtime
diagnostics are requested (distinguishing verbosity 3 from verbosity 2). -/
def resolveLoggingConfig (verbosity : Int) : Option (LogLevel × Bool) :=
  (basicConfigLevel verbosity).map (fun level => (level, asyncioDebugRequested verbosity))

/-- The access-log sink resolution (cli.py lines 234-241):

    access_log_stream = None
    if args.access_log:
        if args.access_log == "-":
            access_log_stream = sys.stdout
        else:
            access_log_stream = open(args.access_log, "a", 1)
    elif args.verbosity >= 1:
        access_log_stream = sys.stdout
-/
def resolveAccessLogStream (access_log : Option String) (verbosity : Int) :
    Option AccessLogSink :=
  if optStrTruthy access_log then
    if access_log = some "-" then some AccessLogSink.stdout
    else access_log.map AccessLogSink.fileAppendLineBuffered
  else if verbosity ≥ 1 then some AccessLogSink.stdout
  else none

/-- The message of the `ArgumentError` raised by
`_check_proxy_headers_passed` (cli.py line 191). -/
def proxyHeadersRequiredMessage : String :=
  "--proxy-headers has to be passed for this parameter."

/-- The errors `run` can raise in the modelled fragment: the `KeyError` from
the verbosity dictionary lookup, and the `ArgumentError` (argparse's
configuration error) from `_check_proxy_headers_passed`. -/
inductive RunError
  | keyError (verbosity : Int)
  | argumentError (message : String)
deriving DecidableEq

/-- Embedding of `_get_forwarded_host` (cli.py lines 194-203): if `args.proxy_headers_host`
is truthy, require `--proxy-headers` (else raise) and return its value; else
if `args.proxy_headers`, return `"X-Forwarded-For"`; else return `None`. -/
def getForwardedHost (args : Args) : Except RunError (Option String) :=
  if optStrTruthy args.proxy_headers_host then
    if args.proxy_headers then Except.ok args.proxy_headers_host
    else Except.error (RunError.argumentError proxyHeadersRequiredMessage)
  else if args.proxy_headers then Except.ok (some "X-Forwarded-For")
  else Except.ok none

/-- Embedding of `_get_forwarded_port` (cli.py lines 205-214), symmetric to
`_get_forwarded_host` with default header name `"X-Forwarded-Port"`. -/
def getForwardedPort (args : Args) : Except RunError (Option String) :=
  if optStrTruthy args.proxy_headers_port then
    if args.proxy_headers then Except.ok args.proxy_headers_port
    else Except.error (RunError.argumentError proxyHeadersRequiredMessage)
  else if args.proxy_headers then Except.ok (some "X-Forwarded-Port")
  else Except.ok none

/-- The `proxy_forwarded_proto_header` argument of the `Server` construction
(cli.py lines 320-322): `"X-Forwarded-Proto" if args.proxy_headers else None`. -/
def getForwardedProto (args : Args) : Option String :=
  if args.proxy_headers then some "X-Forwarded-Proto" else none

/-- The host/port defaulting block of `run` (cli.py lines 273-288):

    if not any([args.host, args.port is not None, args.unix_socket,
                args.file_descriptor is not None, args.socket_strings]):
        args.host = DEFAULT_HOST
        args.port = DEFAULT_PORT
    elif args.host and args.port is None:
        args.port = DEFAULT_PORT
    elif args.port is not None and not args.host:
        args.host = DEFAULT_HOST

Returns the (host, port) pair after the mutation. -/
def resolveHostPort (args : Args) : Option String × Option Int :=
  if !(optStrTruthy args.host || args.port.isSome || optStrTruthy args.unix_socket
      || args.file_descriptor.isSome || !args.socket_strings.isEmpty) then
    (some DEFAULT_HOST, some DEFAULT_PORT)
  else if optStrTruthy args.host && args.port.isNone then
    (args.host, some DEFAULT_PORT)
  else if args.port.isSome && !optStrTruthy args.host then
    (some DEFAULT_HOST, args.port)
  else (args.host, args.port)

/-- Modelled from the spec: `build_endpoint_description_strings` is imported
from `daphne/endpoints.py`, which is not part of the given source.  Per the
spec (§4.3 step 3 and §6) it is a pure function building one descriptor
string for whichever of {host+port, unix socket, file descriptor} are
populated; the concrete string encoding is the collaborator's.  We fix one
injective encoding per populated mechanism. -/
def build_endpoint_description_strings (host : Option String) (port : Option Int)
    (unix_socket : Option String) (file_descriptor : Option Int) : List String :=
  (match host, port with
    | some h, some p => if !h.isEmpty then ["tcp:" ++ h ++ ":" ++ toString p] else []
    | _, _ => [])
  ++ (match unix_socket with
    | some u => if !u.isEmpty then ["unix:" ++ u] else []
    | none => [])
  ++ (match file_descriptor with
    | some fd => ["fd:" ++ toString fd]
    | none => [])

/-- Python's `sorted` on a list of strings: the unique reordering that is
ascending in the lexicographic code-point order (`strLe` is antisymmetric,
so stability does not affect the result).  Modelled by insertion sort, which
is structurally recursive and hence evaluates by `decide`. -/
def sortedStrings (l : List String) : List String :=
  List.insertionSort (fun a b => strLe a b = true) l

/-- The endpoint list of `run` (cli.py lines 289-296): build descriptor
strings from the defaulted host/port plus unix socket and file descriptor,
prepend the raw `--endpoint` strings, and sort:

    endpoints = build_endpoint_description_strings(host=..., port=...,
        unix_socket=..., file_descriptor=...)
    endpoints = sorted(args.socket_strings + endpoints)
-/
def resolveEndpoints (args : Args) : List String :=
  let hp := resolveHostPort args
  let endpoints := build_endpoint_description_strings hp.1 hp.2
    args.unix_socket args.file_descriptor
  sortedStrings (args.socket_strings ++ endpoints)

/-- Which lifecycle hooks the dynamically imported callback module exposes:
the results of `getattr(callback_module, "when_init", None)` and
`getattr(callback_module, "when_ready", None)` being non-`None`. -/
structure CallbackModuleEnv where
  hasWhenInit : Bool
  hasWhenReady : Bool
deriving DecidableEq

/-- The keyword arguments of the `Server(...)` construction
(cli.py lines 303-325). -/
structure ServerConfig where
  application : String
  endpoints : List String
  http_timeout : Option Int
  ping_interval : Int
  ping_timeout : Int
  websocket_timeout : Int
  websocket_connect_timeout : Int
  websocket_handshake_timeout : Int
  application_close_timeout : Int
  action_logger : Option AccessLogSink
  root_path : String
  verbosity : Int
  proxy_forwarded_address_header : Option String
  proxy_forwarded_port_header : Option String
  proxy_forwarded_proto_header : Option String
  server_name : String
  ready_callable : Bool
deriving DecidableEq

/-- The externally visible steps of `run`, in execution order. -/
inductive RunEvent
  | configuredLogging (level : LogLevel) (fmt : String)
  | changedDirectory (dir : String)
  | loadedCallbackModule (name : String)
  | invokedWhenInit
  | invokedWhenReady
  | loadedApplication (path : String)
  | resolvedEndpoints (endpoints : List String)
  | startedServer
deriving DecidableEq

/-- The directory-change step (cli.py lines 245-247): `if args.chdir:` —
Python truthiness, so an empty string does not change directory. -/
def chdirEvents (args : Args) : List RunEvent :=
  if optStrTruthy args.chdir then [RunEvent.changedDirectory (args.chdir.getD "")]
  else []

/-- The callback-module steps (cli.py lines 251-265): the module is imported
when `args.callback_module is not None`; then
`getattr(callback_module, "when_init", None)` is called if non-`None` (when
no module was imported, `getattr(None, ...)` yields `None`, so nothing is
invoked). -/
def callbackEvents (args : Args) (env : CallbackModuleEnv) : List RunEvent :=
  match args.callback_module with
  | some m =>
      RunEvent.loadedCallbackModule m ::
        (if env.hasWhenInit then [RunEvent.invokedWhenInit] else [])
  | none => []

/-- The body of `CommandLineInterface.run` after `parse_args`, replayed as a
pure function.  Returns the events performed in order, and either the
`ServerConfig` passed to `Server(...)` (followed by `server.run()`, the
`startedServer` event) or the first error raised.

Order of the modelled steps, as in the source: verbosity dictionary lookup
for `logging.basicConfig` (a `KeyError` aborts everything else); access-log
sink resolution; directory change; callback module import and `when_init()`
invocation; application import; endpoint resolution; `when_ready` lookup;
then, inside the `Server(...)` call's argument list,
`_get_forwarded_host` and `_get_forwarded_port` (each can raise); finally
`server.run()`.  `when_ready` is only looked up and passed by reference
(`ready_callable`), never invoked here. -/
def runSteps (args : Args) (env : CallbackModuleEnv) :
    List RunEvent × Except RunError ServerConfig :=
  match basicConfigLevel args.verbosity with
  | none => ([], Except.error (RunError.keyError args.verbosity))
  | some level =>
    let access_log_stream := resolveAccessLogStream args.access_log args.verbosity
    let endpoints := resolveEndpoints args
    let events := RunEvent.configuredLogging level args.log_fmt ::
      (chdirEvents args ++ callbackEvents args env ++
        [RunEvent.loadedApplication args.application,
         RunEvent.resolvedEndpoints endpoints])
    let ready_callable := args.callback_module.isSome && env.hasWhenReady
    match getForwardedHost args with
    | Except.error e => (events, Except.error e)
    | Except.ok fwdHost =>
      match getForwardedPort args with
      | Except.error e => (events, Except.error e)
      | Except.ok fwdPort =>
        let cfg : ServerConfig :=
          { application := args.application
            endpoints := endpoints
            http_timeout := args.http_timeout
            ping_interval := args.ping_interval
            ping_timeout := args.ping_timeout
            websocket_timeout := args.websocket_timeout
            websocket_connect_timeout := args.websocket_connect_timeout
            websocket_handshake_timeout := args.websocket_connect_timeout
            application_close_timeout := args.application_close_timeout
            action_logger := access_log_stream
            root_path := args.root_path
            verbosity := args.verbosity
            proxy_forwarded_address_header := fwdHost
            proxy_forwarded_port_header := fwdPort
            proxy_forwarded_proto_header := getForwardedProto args
            server_name := args.server_name
            ready_callable := ready_callable }
        (events ++ [RunEvent.startedServer], Except.ok cfg)

deriving instance DecidableEq for Except

/-! ### The comparison `strLe` agrees with the standard string order -/

theorem charsLe_cons_cons {a b : Char} {as bs : List Char} :
    charsLe (a :: as) (b :: bs) = true ↔
      a.toNat < b.toNat ∨ (a.toNat = b.toNat ∧ charsLe as bs = true) := by
  simp only [charsLe]
  split_ifs with h1 h2
  · simp [h1]
  · simp only [Bool.false_eq_true, false_iff]
    rintro (h | ⟨h, -⟩) <;> omega
  · have h : a.toNat = b.toNat := by omega
    simp [h]

theorem charsLe_total (as bs : List Char) :
    charsLe as bs = true ∨ charsLe bs as = true := by
  induction as generalizing bs with
  | nil => exact Or.inl rfl
  | cons a as ih =>
    cases bs with
    | nil => exact Or.inr rfl
    | cons b bs =>
      rcases Nat.lt_trichotomy a.toNat b.toNat with h | h | h
      · exact Or.inl (charsLe_cons_cons.mpr (Or.inl h))
      · rcases ih bs with h' | h'
        · exact Or.inl (charsLe_cons_cons.mpr (Or.inr ⟨h, h'⟩))
        · exact Or.inr (charsLe_cons_cons.mpr (Or.inr ⟨h.symm, h'⟩))
      · exact Or.inr (charsLe_cons_cons.mpr (Or.inl h))

theorem charsLe_trans {as bs cs : List Char} (h1 : charsLe as bs = true)
    (h2 : charsLe bs cs = true) : charsLe as cs = true := by
  induction as generalizing bs cs with
  | nil => rfl
  | cons a as ih =>
    cases bs with
    | nil => simp [charsLe] at h1
    | cons b bs =>
      cases cs with
      | nil => simp [charsLe] at h2
      | cons c cs =>
        rw [charsLe_cons_cons] at h1 h2 ⊢
        rcases h1 with h1 | ⟨h1, h1'⟩ <;> rcases h2 with h2 | ⟨h2, h2'⟩
        · exact Or.inl (by omega)
        · exact Or.inl (by omega)
        · exact Or.inl (by omega)
        · exact Or.inr ⟨by omega, ih h1' h2'⟩

theorem lex_cons_cons_iff {a b : Char} {as bs : List Char} :
    List.Lex (· < ·) (b :: bs) (a :: as) ↔
      b < a ∨ (b = a ∧ List.Lex (· < ·) bs as) := by
  constructor
  · intro h
    cases h with
    | cons h => exact Or.inr ⟨rfl, h⟩
    | rel h => exact Or.inl h
  · rintro (h | ⟨rfl, h⟩)
    · exact List.Lex.rel h
    · exact List.Lex.cons h

theorem charsLe_iff_not_lex {as bs : List Char} :
    charsLe as bs = true ↔ ¬ List.Lex (· < ·) bs as := by
  induction as generalizing bs with
  | nil => exact iff_of_true rfl (List.Lex.not_nil_right _ _)
  | cons a as ih =>
    cases bs with
    | nil =>
      refine iff_of_false (by simp [charsLe]) (not_not_intro List.Lex.nil)
    | cons b bs =>
      rw [charsLe_cons_cons, lex_cons_cons_iff, ih]
      have hba : (b < a) ↔ b.toNat < a.toNat := Iff.rfl
      have heq : (b = a) ↔ b.toNat = a.toNat :=
        ⟨fun h => by rw [h], fun h => (Char.ext (UInt32.toNat.inj h)).symm ▸ rfl⟩
      constructor
      · rintro (h | ⟨h, hc⟩) <;> rintro (h' | ⟨h', hl⟩)
        · rw [hba] at h'; omega
        · rw [heq] at h'; omega
        · rw [hba] at h'; omega
        · exact hc hl
      · intro h
        rcases Nat.lt_trichotomy a.toNat b.toNat with h' | h' | h'
        · exact Or.inl h'
        · refine Or.inr ⟨h'.symm.symm, fun hl => h (Or.inr ⟨heq.mpr h'.symm, hl⟩)⟩
        · exact absurd (Or.inl (hba.mpr h')) h

theorem strLe_iff_le (a b : String) : strLe a b = true ↔ a ≤ b := by
  rw [String.le_iff_toList_le, ← not_lt]
  exact charsLe_iff_not_lex

theorem sortedStrings_sorted (l : List String) :
    List.Sorted (fun a b : String => strLe a b = true) (sortedStrings l) := by
  haveI : IsTotal String (fun a b : String => strLe a b = true) :=
    ⟨fun a b => charsLe_total a.data b.data⟩
  haveI : IsTrans String (fun a b : String => strLe a b = true) :=
    ⟨fun _ _ _ h1 h2 => charsLe_trans h1 h2⟩
  exact List.sorted_insertionSort _ l

theorem sortedStrings_perm (l : List String) : (sortedStrings l).Perm l :=
  List.perm_insertionSort _ l

theorem sortedStrings_sorted_le (l : List String) :
    List.Sorted (· ≤ ·) (sortedStrings l) :=
  (sortedStrings_sorted l).imp (fun h => (strLe_iff_le _ _).mp h)

theorem isEmpty_eq_false_of_ne {s : String} (h : s ≠ "") : s.isEmpty = false := by
  rw [Bool.eq_false_iff]
  exact fun hb => h ((String.isEmpty_iff s).mp hb)

theorem empty_isEmpty : "".isEmpty = true := rfl

/-! ### Claims -/

/-- Claim C2: if none of host, port, unix socket, file descriptor, or explicit
endpoint strings are supplied, endpoint resolution defaults the host to
"127.0.0.1" and the port to 8000, and the resolved endpoint list is exactly
the single descriptor built from loopback:8000. -/
theorem claim_C2 (args : Args)
    (hhost : args.host = none) (hport : args.port = none)
    (hunix : args.unix_socket = none) (hfd : args.file_descriptor = none)
    (hstr : args.socket_strings = []) :
    resolveHostPort args = (some DEFAULT_HOST, some DEFAULT_PORT) ∧
    DEFAULT_HOST = "127.0.0.1" ∧ DEFAULT_PORT = 8000 ∧
    resolveEndpoints args =
      build_endpoint_description_strings (some DEFAULT_HOST) (some DEFAULT_PORT)
        none none ∧
    resolveEndpoints args = ["tcp:127.0.0.1:8000"] := by
  have h1 : resolveHostPort args = (some DEFAULT_HOST, some DEFAULT_PORT) := by
    simp [resolveHostPort, hhost, hport, hunix, hfd, hstr, optStrTruthy]
  refine ⟨h1, rfl, rfl, ?_, ?_⟩ <;>
    rw [resolveEndpoints, h1, hstr, hunix, hfd] <;> rfl

/-- Closed witness for `claim_C2`, instantiated at the parse of
`["app:instance"]` (all binding options at their argparse defaults). -/
theorem claim_C2_witness :
    resolveEndpoints (defaultArgs "app:instance") = ["tcp:127.0.0.1:8000"] :=
  (claim_C2 (defaultArgs "app:instance") rfl rfl rfl rfl rfl).2.2.2.2

/-- Claim C4: verbosity 0, 1, 2, 3 map respectively to warn, info, debug, and
debug-with-extra-concurrency-runtime-diagnostics; any other verbosity has no
mapping and makes the run fail fast at the logging-configuration step (the
`KeyError`, with no step performed). -/
theorem claim_C4 (v : Int) :
    (v = 0 → resolveLoggingConfig v = some (LogLevel.warn, false)) ∧
    (v = 1 → resolveLoggingConfig v = some (LogLevel.info, false)) ∧
    (v = 2 → resolveLoggingConfig v = some (LogLevel.debug, false)) ∧
    (v = 3 → resolveLoggingConfig v = some (LogLevel.debug, true)) ∧
    (v ≠ 0 → v ≠ 1 → v ≠ 2 → v ≠ 3 →
      resolveLoggingConfig v = none ∧
      ∀ (args : Args) (env : CallbackModuleEnv), args.verbosity = v →
        runSteps args env = ([], Except.error (RunError.keyError v))) := by
  refine ⟨?_, ?_, ?_, ?_, ?_⟩ <;> intro h0
  · subst h0; rfl
  · subst h0; rfl
  · subst h0; rfl
  · subst h0; rfl
  · intro h1 h2 h3
    have hnone : basicConfigLevel v = none := by
      simp [basicConfigLevel, h0, h1, h2, h3]
    refine ⟨by simp [resolveLoggingConfig, hnone], ?_⟩
    intro args env hv
    rw [runSteps]
    rw [hv, hnone]

/-- Closed witness for `claim_C4`: verbosity 3 maps to
debug-with-extra-diagnostics, and verbosity 7 has no mapping and fails the
run at the logging step. -/
theorem claim_C4_witness :
    resolveLoggingConfig 3 = some (LogLevel.debug, true) ∧
    resolveLoggingConfig 7 = none ∧
    runSteps { defaultArgs "app:instance" with verbosity := 7 } ⟨false, false⟩ =
      ([], Except.error (RunError.keyError 7)) := by
  refine ⟨(claim_C4 3).2.2.2.1 rfl, ((claim_C4 7).2.2.2.2 (by decide) (by decide)
    (by decide) (by decide)).1, ((claim_C4 7).2.2.2.2 (by decide) (by decide)
    (by decide) (by decide)).2 _ _ rfl⟩

/-- Claim C5: with `--proxy-headers` passed and neither per-header flag given
a non-empty value, the forwarded-for, forwarded-port and forwarded-proto
header names are "X-Forwarded-For", "X-Forwarded-Port" and
"X-Forwarded-Proto"; without `--proxy-headers` (and no per-header flag), all
three are absent. -/
theorem claim_C5 (args : Args)
    (hh : optStrTruthy args.proxy_headers_host = false)
    (hp : optStrTruthy args.proxy_headers_port = false) :
    (args.proxy_headers = true →
      getForwardedHost args = Except.ok (some "X-Forwarded-For") ∧
      getForwardedPort args = Except.ok (some "X-Forwarded-Port") ∧
      getForwardedProto args = some "X-Forwarded-Proto") ∧
    (args.proxy_headers = false →
      getForwardedHost args = Except.ok none ∧
      getForwardedPort args = Except.ok none ∧
      getForwardedProto args = none) := by
  constructor <;> intro hph <;>
    exact ⟨by simp [getForwardedHost, hh, hph],
      by simp [getForwardedPort, hp, hph],
      by simp [getForwardedProto, hph]⟩

/-- Closed witness for `claim_C5`: with only `--proxy-headers` passed the
three conventional names result, and with no proxy flag at all the three
header names are absent. -/
theorem claim_C5_witness :
    (getForwardedHost { defaultArgs "app:instance" with proxy_headers := true } =
      Except.ok (some "X-Forwarded-For") ∧
     getForwardedPort { defaultArgs "app:instance" with proxy_headers := true } =
      Except.ok (some "X-Forwarded-Port") ∧
     getForwardedProto { defaultArgs "app:instance" with proxy_headers := true } =
      some "X-Forwarded-Proto") ∧
    (getForwardedHost (defaultArgs "app:instance") = Except.ok none ∧
     getForwardedPort (defaultArgs "app:instance") = Except.ok none ∧
     getForwardedProto (defaultArgs "app:instance") = none) :=
  ⟨(claim_C5 { defaultArgs "app:instance" with proxy_headers := true }
      rfl rfl).1 rfl,
   (claim_C5 (defaultArgs "app:instance") rfl rfl).2 rfl⟩

/-- Claim C6: an access-log destination of "-" selects stdout and any other
non-empty destination selects that path opened for append with line
buffering; with no destination, verbosity ≥ 1 selects stdout and verbosity 0
selects no sink. -/
theorem claim_C6 (access_log : Option String) (verbosity : Int) :
    (∀ s, access_log = some s → s ≠ "" →
      (s = "-" →
        resolveAccessLogStream access_log verbosity = some AccessLogSink.stdout) ∧
      (s ≠ "-" →
        resolveAccessLogStream access_log verbosity =
          some (AccessLogSink.fileAppendLineBuffered s))) ∧
    (access_log = none → 1 ≤ verbosity →
      resolveAccessLogStream access_log verbosity = some AccessLogSink.stdout) ∧
    (access_log = none → verbosity = 0 →
      resolveAccessLogStream access_log verbosity = none) := by
  refine ⟨?_, ?_, ?_⟩
  · rintro s rfl hs
    have ht : optStrTruthy (some s) = true := by
      simp [optStrTruthy, isEmpty_eq_false_of_ne hs]
    constructor <;> intro hdash
    · subst hdash; rfl
    · simp [resolveAccessLogStream, ht, hdash]
  · rintro rfl hv
    simp [resolveAccessLogStream, optStrTruthy, hv]
  · rintro rfl hv
    subst hv
    rfl

/-- Closed witness for `claim_C6`: "-" maps to stdout; "access.log" opens
that path for append; omitted with verbosity 1 maps to stdout; omitted with
verbosity 0 yields no sink. -/
theorem claim_C6_witness :
    resolveAccessLogStream (some "-") 1 = some AccessLogSink.stdout ∧
    resolveAccessLogStream (some "access.log") 0 =
      some (AccessLogSink.fileAppendLineBuffered "access.log") ∧
    resolveAccessLogStream none 1 = some AccessLogSink.stdout ∧
    resolveAccessLogStream none 0 = none :=
  ⟨((claim_C6 (some "-") 1).1 "-" rfl (by decide)).1 rfl,
   ((claim_C6 (some "access.log") 0).1 "access.log" rfl (by decide)).2 (by decide),
   (claim_C6 none 1).2.1 rfl (by decide),
   (claim_C6 none 0).2.2 rfl rfl⟩

/-- Claim C7: a non-empty host supplied without a port resolves the port to
the default 8000; a port supplied without a host resolves the host to the
default "127.0.0.1". -/
theorem claim_C7 :
    (∀ (args : Args) (h : String), args.host = some h → h ≠ "" →
      args.port = none →
      (resolveHostPort args).2 = some DEFAULT_PORT ∧ DEFAULT_PORT = 8000) ∧
    (∀ (args : Args) (p : Int), args.port = some p → args.host = none →
      (resolveHostPort args).1 = some DEFAULT_HOST ∧
        DEFAULT_HOST = "127.0.0.1") := by
  constructor
  · intro args h hhost hne hport
    have ht : optStrTruthy args.host = true := by
      simp [hhost, optStrTruthy, isEmpty_eq_false_of_ne hne]
    refine ⟨?_, rfl⟩
    simp [resolveHostPort, ht, hport]
  · intro args p hport hhost
    have ht : optStrTruthy args.host = false := by simp [hhost, optStrTruthy]
    refine ⟨?_, rfl⟩
    simp [resolveHostPort, ht, hport]

/-- Closed witness for `claim_C7`: `-b 0.0.0.0` alone resolves the port to
8000, and `-p 9000` alone resolves the host to "127.0.0.1". -/
theorem claim_C7_witness :
    (resolveHostPort { defaultArgs "app:instance" with host := some "0.0.0.0" }).2 =
      some DEFAULT_PORT ∧
    (resolveHostPort { defaultArgs "app:instance" with port := some 9000 }).1 =
      some DEFAULT_HOST :=
  ⟨(claim_C7.1 { defaultArgs "app:instance" with host := some "0.0.0.0" }
      "0.0.0.0" rfl (by decide) rfl).1,
   (claim_C7.2 { defaultArgs "app:instance" with port := some 9000 }
      9000 rfl rfl).1⟩

/-- Claim C9: `--access-log` given the empty string is treated exactly like
an omitted access-log destination: the explicit branch neither opens a file
nor selects stdout, and the sink falls through to the verbosity-based
default (stdout when verbosity ≥ 1, no sink otherwise). -/
theorem claim_C9 (verbosity : Int) :
    resolveAccessLogStream (some "") verbosity =
      resolveAccessLogStream none verbosity ∧
    (1 ≤ verbosity →
      resolveAccessLogStream (some "") verbosity = some AccessLogSink.stdout) ∧
    (verbosity < 1 → resolveAccessLogStream (some "") verbosity = none) := by
  refine ⟨rfl, ?_, ?_⟩ <;> intro hv
  · simp [resolveAccessLogStream, optStrTruthy, empty_isEmpty, hv]
  · simp [resolveAccessLogStream, optStrTruthy, empty_isEmpty, hv, not_le.mpr hv]

/-- Closed witness for `claim_C9`: the empty access-log value with verbosity
1 selects stdout, and with verbosity 0 selects no sink. -/
theorem claim_C9_witness :
    resolveAccessLogStream (some "") 1 = some AccessLogSink.stdout ∧
    resolveAccessLogStream (some "") 0 = none :=
  ⟨(claim_C9 1).2.1 (by decide), (claim_C9 0).2.2 (by decide)⟩

/-- Claim C10: a per-header proxy flag given the empty string is treated as
absent: no error is raised even without `--proxy-headers`, and the header
name falls back to the conventional default (with `--proxy-headers`) or to
absent. -/
theorem claim_C10 (args : Args) :
    (args.proxy_headers_host = some "" →
      getForwardedHost args =
        getForwardedHost { args with proxy_headers_host := none } ∧
      (args.proxy_headers = false → getForwardedHost args = Except.ok none) ∧
      (args.proxy_headers = true →
        getForwardedHost args = Except.ok (some "X-Forwarded-For"))) ∧
    (args.proxy_headers_port = some "" →
      getForwardedPort args =
        getForwardedPort { args with proxy_headers_port := none } ∧
      (args.proxy_headers = false → getForwardedPort args = Except.ok none) ∧
      (args.proxy_headers = true →
        getForwardedPort args = Except.ok (some "X-Forwarded-Port"))) := by
  constructor <;> intro hempty
  · refine ⟨?_, ?_, ?_⟩
    · simp [getForwardedHost, hempty, optStrTruthy, empty_isEmpty]
    · intro hph; simp [getForwardedHost, hempty, optStrTruthy, empty_isEmpty, hph]
    · intro hph; simp [getForwardedHost, hempty, optStrTruthy, empty_isEmpty, hph]
  · refine ⟨?_, ?_, ?_⟩
    · simp [getForwardedPort, hempty, optStrTruthy, empty_isEmpty]
    · intro hph; simp [getForwardedPort, hempty, optStrTruthy, empty_isEmpty, hph]
    · intro hph; simp [getForwardedPort, hempty, optStrTruthy, empty_isEmpty, hph]

/-- Closed witness for `claim_C10`: both per-header flags set to the empty
string without `--proxy-headers` raise nothing and resolve to absent header
names. -/
theorem claim_C10_witness :
    getForwardedHost { defaultArgs "app:instance" with
      proxy_headers_host := some "", proxy_headers_port := some "" } =
      Except.ok none ∧
    getForwardedPort { defaultArgs "app:instance" with
      proxy_headers_host := some "", proxy_headers_port := some "" } =
      Except.ok none :=
  ⟨((claim_C10 { defaultArgs "app:instance" with
      proxy_headers_host := some "", proxy_headers_port := some "" }).1
      rfl).2.1 rfl,
   ((claim_C10 { defaultArgs "app:instance" with
      proxy_headers_host := some "", proxy_headers_port := some "" }).2
      rfl).2.1 rfl⟩

/-- Claim C3: every explicitly supplied `--endpoint` string appears verbatim
in the final endpoint list; the final list is a permutation of the merge of
those strings with the descriptors derived from host/port, unix socket and
file descriptor; and it is sorted lexicographically by string ordering. -/
theorem claim_C3 (args : Args) :
    (∀ s, s ∈ args.socket_strings → s ∈ resolveEndpoints args) ∧
    (resolveEndpoints args).Perm
      (args.socket_strings ++
        build_endpoint_description_strings (resolveHostPort args).1
          (resolveHostPort args).2 args.unix_socket args.file_descriptor) ∧
    List.Sorted (· ≤ ·) (resolveEndpoints args) := by
  have hperm : (resolveEndpoints args).Perm
      (args.socket_strings ++
        build_endpoint_description_strings (resolveHostPort args).1
          (resolveHostPort args).2 args.unix_socket args.file_descriptor) := by
    simp only [resolveEndpoints]
    exact sortedStrings_perm _
  refine ⟨?_, hperm, ?_⟩
  · intro s hs
    exact hperm.mem_iff.mpr (List.mem_append_left _ hs)
  · simp only [resolveEndpoints]
    exact sortedStrings_sorted_le _

/-- Closed witness for `claim_C3`: a raw endpoint string sorting after the
derived descriptor is still present verbatim in the final list. -/
theorem claim_C3_witness :
    "zzz:raw" ∈ resolveEndpoints
      { defaultArgs "app:instance" with socket_strings := ["zzz:raw"] } :=
  (claim_C3 { defaultArgs "app:instance" with
    socket_strings := ["zzz:raw"] }).1 "zzz:raw" (by decide)

/-! ### Trace helpers for the ordering claims -/

theorem mem_chdirEvents {e : RunEvent} {args : Args}
    (h : e ∈ chdirEvents args) : ∃ d, e = RunEvent.changedDirectory d := by
  rw [chdirEvents] at h
  split at h
  · exact ⟨_, List.mem_singleton.mp h⟩
  · cases h

theorem mem_callbackEvents {e : RunEvent} {args : Args}
    {env : CallbackModuleEnv} (h : e ∈ callbackEvents args env) :
    (∃ m, e = RunEvent.loadedCallbackModule m) ∨
      e = RunEvent.invokedWhenInit := by
  rw [callbackEvents] at h
  split at h
  · rcases List.mem_cons.mp h with h | h
    · exact Or.inl ⟨_, h⟩
    · split at h
      · exact Or.inr (List.mem_singleton.mp h)
      · cases h
  · cases h

/-! ### Claims C1 and C8 -/

/-- Counterexample to claim C1 as stated: for the parse of
`["--proxy-headers-host","X-Real-IP","app:instance"]` (that is, the argparse
defaults with `proxy_headers_host = "X-Real-IP"`), the run does fail with
the ConfigurationError, but the failure does NOT occur before endpoint
resolution: the `resolvedEndpoints` event is already in the recorded trace
when the error is raised, because `_get_forwarded_host` is only evaluated
inside the `Server(...)` construction, after the endpoint list is built. -/
theorem claim_C1_counterexample :
    (runSteps { defaultArgs "app:instance" with
        proxy_headers_host := some "X-Real-IP" } ⟨false, false⟩).2 =
      Except.error (RunError.argumentError proxyHeadersRequiredMessage) ∧
    RunEvent.resolvedEndpoints ["tcp:127.0.0.1:8000"] ∈
      (runSteps { defaultArgs "app:instance" with
        proxy_headers_host := some "X-Real-IP" } ⟨false, false⟩).1 := by
  constructor
  · rfl
  · decide

/-- Claim C1 as amended: with `--proxy-headers-host` given a non-empty value
and `--proxy-headers` not passed (and a verbosity the logging step accepts),
the run fails with the ConfigurationError
"--proxy-headers has to be passed for this parameter."; the failure occurs
after endpoint resolution (the `resolvedEndpoints` event is in the trace)
but before the server is started (no `startedServer` event). -/
theorem claim_C1_amended (args : Args) (env : CallbackModuleEnv)
    (level : LogLevel)
    (hhost : optStrTruthy args.proxy_headers_host = true)
    (hph : args.proxy_headers = false)
    (hlevel : basicConfigLevel args.verbosity = some level) :
    (runSteps args env).2 =
      Except.error (RunError.argumentError proxyHeadersRequiredMessage) ∧
    RunEvent.resolvedEndpoints (resolveEndpoints args) ∈
      (runSteps args env).1 ∧
    RunEvent.startedServer ∉ (runSteps args env).1 := by
  have hfwd : getForwardedHost args =
      Except.error (RunError.argumentError proxyHeadersRequiredMessage) := by
    simp [getForwardedHost, hhost, hph]
  rw [runSteps, hlevel, hfwd]
  refine ⟨rfl, by simp, ?_⟩
  intro hmem
  simp only [List.mem_cons, List.mem_append, List.mem_singleton] at hmem
  rcases hmem with h | (h | h) | h
  · cases h
  · obtain ⟨d, hd⟩ := mem_chdirEvents h
    cases hd
  · rcases mem_callbackEvents h with ⟨m', hm'⟩ | hm' <;> cases hm'
  · simp at h

/-- Closed witness for `claim_C1_amended`, at the parse of
`["--proxy-headers-host","X-Real-IP","app:instance"]`. -/
theorem claim_C1_amended_witness :
    (runSteps { defaultArgs "app:instance" with
        proxy_headers_host := some "X-Real-IP" } ⟨false, false⟩).2 =
      Except.error (RunError.argumentError proxyHeadersRequiredMessage) ∧
    RunEvent.resolvedEndpoints
        (resolveEndpoints { defaultArgs "app:instance" with
          proxy_headers_host := some "X-Real-IP" }) ∈
      (runSteps { defaultArgs "app:instance" with
        proxy_headers_host := some "X-Real-IP" } ⟨false, false⟩).1 ∧
    RunEvent.startedServer ∉
      (runSteps { defaultArgs "app:instance" with
        proxy_headers_host := some "X-Real-IP" } ⟨false, false⟩).1 :=
  claim_C1_amended { defaultArgs "app:instance" with
      proxy_headers_host := some "X-Real-IP" } ⟨false, false⟩
    LogLevel.info rfl rfl rfl

/-- Claim C8: when a callback module is given and exposes a `when_init`
hook, the hook is invoked immediately before the application is loaded; the
`when_ready` hook is looked up but never invoked by this core (no
`invokedWhenReady` event exists in any trace), being passed by reference
(`ready_callable`) to the server collaborator. -/
theorem claim_C8 (args : Args) (env : CallbackModuleEnv) (m : String)
    (level : LogLevel)
    (hm : args.callback_module = some m)
    (hinit : env.hasWhenInit = true)
    (hlevel : basicConfigLevel args.verbosity = some level) :
    (∃ pre post, (runSteps args env).1 =
      pre ++ RunEvent.invokedWhenInit ::
        RunEvent.loadedApplication args.application :: post) ∧
    RunEvent.invokedWhenReady ∉ (runSteps args env).1 ∧
    ∀ cfg, (runSteps args env).2 = Except.ok cfg →
      cfg.ready_callable = env.hasWhenReady := by
  have hcb : callbackEvents args env =
      [RunEvent.loadedCallbackModule m, RunEvent.invokedWhenInit] := by
    rw [callbackEvents]
    rw [hm, hinit]
    rfl
  have hnotready : ∀ rest : List RunEvent,
      RunEvent.invokedWhenReady ∉ rest →
      RunEvent.invokedWhenReady ∉
        RunEvent.configuredLogging level args.log_fmt ::
          (chdirEvents args ++ callbackEvents args env ++
            ([RunEvent.loadedApplication args.application,
              RunEvent.resolvedEndpoints (resolveEndpoints args)] ++ rest)) := by
    intro rest hrest hmem
    rcases List.mem_cons.mp hmem with h | hmem
    · cases h
    rcases List.mem_append.mp hmem with hmem | hmem
    · rcases List.mem_append.mp hmem with h | h
      · obtain ⟨d, hd⟩ := mem_chdirEvents h
        cases hd
      · rcases mem_callbackEvents h with ⟨m', hm'⟩ | hm' <;> cases hm'
    · rcases List.mem_append.mp hmem with h | h
      · simp at h
      · exact hrest h
  have hpre : ∀ rest : List RunEvent,
      RunEvent.configuredLogging level args.log_fmt ::
          (chdirEvents args ++ callbackEvents args env ++
            ([RunEvent.loadedApplication args.application,
              RunEvent.resolvedEndpoints (resolveEndpoints args)] ++ rest)) =
        (RunEvent.configuredLogging level args.log_fmt ::
            (chdirEvents args ++ [RunEvent.loadedCallbackModule m])) ++
          RunEvent.invokedWhenInit ::
            RunEvent.loadedApplication args.application ::
              (RunEvent.resolvedEndpoints (resolveEndpoints args) :: rest) := by
    intro rest
    simp [hcb, List.append_assoc]
  rw [runSteps, hlevel]
  cases hH : getForwardedHost args with
  | error e =>
    refine ⟨⟨RunEvent.configuredLogging level args.log_fmt ::
        (chdirEvents args ++ [RunEvent.loadedCallbackModule m]),
      [RunEvent.resolvedEndpoints (resolveEndpoints args)], ?_⟩, ?_, ?_⟩
    · simpa using hpre []
    · simpa using hnotready [] (by simp)
    · intro cfg hcfg
      simp at hcfg
  | ok fh =>
    cases hP : getForwardedPort args with
    | error e =>
      refine ⟨⟨RunEvent.configuredLogging level args.log_fmt ::
          (chdirEvents args ++ [RunEvent.loadedCallbackModule m]),
        [RunEvent.resolvedEndpoints (resolveEndpoints args)], ?_⟩, ?_, ?_⟩
      · simpa using hpre []
      · simpa using hnotready [] (by simp)
      · intro cfg hcfg
        simp at hcfg
    | ok fp =>
      refine ⟨⟨RunEvent.configuredLogging level args.log_fmt ::
          (chdirEvents args ++ [RunEvent.loadedCallbackModule m]),
        [RunEvent.resolvedEndpoints (resolveEndpoints args),
         RunEvent.startedServer], ?_⟩, ?_, ?_⟩
      · simpa using hpre [RunEvent.startedServer]
      · simpa using hnotready [RunEvent.startedServer] (by simp)
      · intro cfg hcfg
        simp only [Except.ok.injEq] at hcfg
        rw [← hcfg]
        simp [hm]

/-- Closed witness for `claim_C8`: a run with a callback module exposing
both hooks invokes `when_init` right before loading the application, never
emits an `invokedWhenReady` event, and passes the `when_ready` reference in
the server configuration. -/
theorem claim_C8_witness :
    (∃ pre post,
      (runSteps { defaultArgs "app:instance" with
          callback_module := some "hooks" } ⟨true, true⟩).1 =
        pre ++ RunEvent.invokedWhenInit ::
          RunEvent.loadedApplication "app:instance" :: post) ∧
    RunEvent.invokedWhenReady ∉
      (runSteps { defaultArgs "app:instance" with
        callback_module := some "hooks" } ⟨true, true⟩).1 ∧
    ∀ cfg, (runSteps { defaultArgs "app:instance" with
        callback_module := some "hooks" } ⟨true, true⟩).2 = Except.ok cfg →
      cfg.ready_callable = true :=
  claim_C8 { defaultArgs "app:instance" with callback_module := some "hooks" }
    ⟨true, true⟩ "hooks" LogLevel.info rfl rfl rfl

end DaphneCLI
